import Mathlib

/-!
Verification development for the subscription-cancellation wizard
(`src/components/CancellationFlow.tsx`, `seed.sql`).

The React component is shallowly embedded: its `useState` cells become the
fields of `WizardState`, every button / input handler becomes a constructor of
`Event`, and one pure total function `step` applies a handler exactly when the
corresponding control is rendered on the current step (otherwise the event is
impossible in the UI and `step` leaves the state unchanged).
-/

namespace CancellationFlow

/-- The `'A' | 'B'` downsell variant tag. -/
inductive Variant where
  | A
  | B
deriving DecidableEq, Repr

/-- The `FlowStep` union type of the source (11 steps). -/
inductive FlowStep where
  | initial
  | congratsForm
  | feedbackForm
  | visaHelp
  | allDone
  | founderMessage
  | offer
  | offerAccepted
  | usageQuestions
  | detailedReasons
  | sorryToGo
deriving DecidableEq, Repr

/-- The `FormData` interface of the source.  JS `string` fields keep `String`;
`boolean | null` fields become `Option Bool`.  A JS string field counts as
"unset"/falsy exactly when it is `""`. -/
structure FormData where
  foundJob : Option Bool
  usedMigrateMate : Option Bool
  rolesApplied : String
  companiesEmailed : String
  companiesInterviewed : String
  feedback : String
  visaHelp : Option Bool
  visaType : String
  usageRolesApplied : String
  usageCompaniesEmailed : String
  usageCompaniesInterviewed : String
  cancellationReason : String
  reasonDetails : String
  congratsError : String
  usageError : String
  reasonError : String
  detailsError : String
  visaError : String
deriving DecidableEq, Repr

/-- The value the component's `useState<FormData>` starts from (and the value
`resetToInitial` writes back). -/
def initialFormData : FormData :=
  { foundJob := none
    usedMigrateMate := none
    rolesApplied := ""
    companiesEmailed := ""
    companiesInterviewed := ""
    feedback := ""
    visaHelp := none
    visaType := ""
    usageRolesApplied := ""
    usageCompaniesEmailed := ""
    usageCompaniesInterviewed := ""
    cancellationReason := ""
    reasonDetails := ""
    congratsError := ""
    usageError := ""
    reasonError := ""
    detailsError := ""
    visaError := "" }

/-- JS whitespace characters recognised by `String.prototype.trim` /
`parseFloat` (the common ones: space, tab, LF, VT, FF, CR, NBSP). -/
def isJsWs (c : Char) : Bool :=
  c = ' ' || c = '\t' || c = '\n' || c = '\x0b' || c = '\x0c' || c = '\r' ||
    c.toNat = 160

/-- Model of `String.prototype.trim`. -/
def jsTrim (s : String) : String :=
  ⟨((s.data.dropWhile isJsWs).reverse.dropWhile isJsWs).reverse⟩

def isJsDigit (c : Char) : Bool := '0' ≤ c && c ≤ '9'

/-- After whitespace and an optional sign, `parseFloat` yields a non-NaN value
iff the rest starts with a digit, with a dot followed by a digit, or with the
literal `Infinity`. -/
def startsNumber : List Char → Bool
  | [] => false
  | c :: rest =>
    if isJsDigit c then true
    else if c = '.' then
      match rest with
      | d :: _ => isJsDigit d
      | [] => false
    else (c :: rest).take 8 = ['I', 'n', 'f', 'i', 'n', 'i', 't', 'y']

/-- Model of `isNaN(parseFloat(s))` — the only use the source makes of the
parsed amount (`const amount = parseFloat(formData.reasonDetails)` feeds only
the `isNaN(amount)` test). -/
def parseFloatIsNaN (s : String) : Bool :=
  let l := s.data.dropWhile isJsWs
  let l' := match l with
    | '+' :: t => t
    | '-' :: t => t
    | _ => l
  !(startsNumber l')

/-- The UTF-16 code units of one character, as `charCodeAt` enumerates them
(a surrogate pair for code points above the BMP). -/
def utf16CodeUnits (c : Char) : List Nat :=
  if c.toNat < 65536 then [c.toNat]
  else [55296 + (c.toNat - 65536) / 1024, 56320 + (c.toNat - 65536) % 1024]

/-- JS `s.length`: the number of UTF-16 code units. -/
def utf16Length (s : String) : Nat :=
  ((s.data.map utf16CodeUnits).map List.length).sum

/-- The digest of the variant-assignment `useEffect`:
`userId.split('').reduce((acc, char) => acc + char.charCodeAt(0), 0)`. -/
def charCodeSum (s : String) : Nat :=
  ((s.data.map utf16CodeUnits).flatten).sum

/-- Deterministic branch of the variant-assignment `useEffect` (taken whenever
`userId` is truthy, i.e. non-empty): `hash % 2 === 0 ? 'A' : 'B'`. -/
def assignVariant (userId : String) : Variant :=
  if charCodeSum userId % 2 = 0 then .A else .B

/-- `getDiscountedPrice`: `originalPrice / 2` (JS number division; the inputs
are integer cent amounts, so the value is exact and modelled over `ℚ`). -/
def getDiscountedPrice (originalPrice : ℚ) : ℚ :=
  originalPrice / 2

/-- The price `renderOffer` displays:
`downsellVariant === 'B' ? getDiscountedPrice(originalPrice) : originalPrice`. -/
def offerDisplayedPrice (downsellVariant : Variant) (monthlyPrice : ℚ) : ℚ :=
  if downsellVariant = .B then getDiscountedPrice monthlyPrice else monthlyPrice

/-- `validateCongratsForm` (inside `renderCongratsForm`): returns the updated
form data (the `setFormData` call) and the boolean result. -/
def validateCongratsForm (f : FormData) : FormData × Bool :=
  if f.usedMigrateMate = none ∨ f.rolesApplied = "" ∨ f.companiesEmailed = "" ∨
      f.companiesInterviewed = "" then
    ({ f with congratsError := "Please answer all questions to continue" }, false)
  else
    ({ f with congratsError := "" }, true)

/-- `validateVisaForm` (inside `renderVisaHelp`). -/
def validateVisaForm (f : FormData) : FormData × Bool :=
  if f.visaHelp = none then
    ({ f with visaError := "Please select an option" }, false)
  else if jsTrim f.visaType = "" then
    ({ f with visaError := "Please specify the visa type" }, false)
  else
    ({ f with visaError := "" }, true)

/-- `validateUsageForm` (inside `renderUsageQuestions`). -/
def validateUsageForm (f : FormData) : FormData × Bool :=
  if f.usageRolesApplied = "" ∨ f.usageCompaniesEmailed = "" ∨
      f.usageCompaniesInterviewed = "" then
    ({ f with usageError := "To help us understand, please pick an option for all questions" },
      false)
  else
    ({ f with usageError := "" }, true)

/-- `validateReasonsForm` (inside `renderDetailedReasons`). -/
def validateReasonsForm (f : FormData) : FormData × Bool :=
  if f.cancellationReason = "" then
    ({ f with reasonError := "To help us understand, please pick an option" }, false)
  else if f.cancellationReason = "too-expensive" then
    if parseFloatIsNaN f.reasonDetails ∨ jsTrim f.reasonDetails = "" then
      ({ f with detailsError := "Please enter a valid number" }, false)
    else
      ({ f with reasonError := "", detailsError := "" }, true)
  else if utf16Length f.reasonDetails < 25 then
    ({ f with detailsError := "Please type 25 characters min" }, false)
  else
    ({ f with reasonError := "", detailsError := "" }, true)

/-- The component's `useState` cells: `currentStep`, `downsellVariant`,
`stepHistory`, `formData`. -/
structure WizardState where
  currentStep : FlowStep
  downsellVariant : Variant
  stepHistory : List FlowStep
  formData : FormData
deriving DecidableEq, Repr

/-- `navigateToStep`: append to the history and move the cursor. -/
def navigateToStep (s : WizardState) (target : FlowStep) : WizardState :=
  { s with stepHistory := s.stepHistory ++ [target], currentStep := target }

/-- `goBack`: when more than one entry is in the history, drop the last entry
and make the new last entry current; otherwise do nothing. -/
def goBack (s : WizardState) : WizardState :=
  if s.stepHistory.length > 1 then
    let newHistory := s.stepHistory.dropLast
    { s with stepHistory := newHistory,
             currentStep := newHistory.getLast?.getD FlowStep.initial }
  else s

/-- `resetToInitial`: cursor and history back to `initial`, form data back to
its starting value.  (The source does not touch `downsellVariant` here.) -/
def resetToInitial (s : WizardState) : WizardState :=
  { s with currentStep := .initial, stepHistory := [.initial],
           formData := initialFormData }

/-- The option strings the four-button enumerations render. -/
def roleOptions : List String := ["0", "1-5", "6-20", "20+"]

def interviewOptions : List String := ["0", "1-2", "3-5", "5+"]

/-- The `value`s of `reasonOptions` in `renderDetailedReasons`. -/
def reasonValues : List String :=
  ["too-expensive", "platform-not-helpful", "not-enough-jobs",
   "decided-not-to-move", "other"]

/-- One constructor per user control of the component.  Payloads of the
enumerated buttons carry the option string the button renders. -/
inductive Event where
  | initialChoice (foundJob : Bool)
  | setUsedMigrateMate (b : Bool)
  | setRolesApplied (opt : String)
  | setCompaniesEmailed (opt : String)
  | setCompaniesInterviewed (opt : String)
  | congratsContinue
  | setFeedback (text : String)
  | feedbackContinue
  | setVisaHelp (b : Bool)
  | setVisaType (text : String)
  | visaContinue
  | offerResponse (accepted : Bool)
  | setUsageRolesApplied (opt : String)
  | setUsageCompaniesEmailed (opt : String)
  | setUsageCompaniesInterviewed (opt : String)
  | usageSubmit (getDiscount : Bool)
  | setCancellationReason (value : String)
  | setReasonDetails (text : String)
  | reasonsSubmit (getDiscount : Bool)
  | back
  | closeButton
  | finishClose
deriving DecidableEq, Repr

/-- The four steps whose render has a `Finish` / close button wired straight
to `onClose` (all-done, founder-message, offer-accepted, sorry-to-go). -/
def terminalSteps : List FlowStep :=
  [.allDone, .founderMessage, .offerAccepted, .sorryToGo]

/-- One user action.  A handler runs exactly when its control is rendered on
the current step; an event whose control is not on screen leaves the state
unchanged.  `back` (header back arrow) and `closeButton` (header X, which runs
`resetToInitial()` then `onClose()`) are on every step; `finishClose` is the
terminal `Finish` button, which calls only `onClose()` and so changes no
component state. -/
def step (s : WizardState) (e : Event) : WizardState :=
  match e with
  | .initialChoice b =>
    if s.currentStep = .initial then
      let s' := { s with formData := { s.formData with foundJob := some b } }
      navigateToStep s' (if b then .congratsForm else .offer)
    else s
  | .setUsedMigrateMate b =>
    if s.currentStep = .congratsForm then
      { s with formData := { s.formData with usedMigrateMate := some b } }
    else s
  | .setRolesApplied opt =>
    if s.currentStep = .congratsForm ∧ opt ∈ roleOptions then
      { s with formData := { s.formData with rolesApplied := opt } }
    else s
  | .setCompaniesEmailed opt =>
    if s.currentStep = .congratsForm ∧ opt ∈ roleOptions then
      { s with formData := { s.formData with companiesEmailed := opt } }
    else s
  | .setCompaniesInterviewed opt =>
    if s.currentStep = .congratsForm ∧ opt ∈ interviewOptions then
      { s with formData := { s.formData with companiesInterviewed := opt } }
    else s
  | .congratsContinue =>
    if s.currentStep = .congratsForm then
      let v := validateCongratsForm s.formData
      let s' := { s with formData := v.1 }
      if v.2 then navigateToStep s' .feedbackForm else s'
    else s
  | .setFeedback t =>
    if s.currentStep = .feedbackForm then
      { s with formData := { s.formData with feedback := t } }
    else s
  | .feedbackContinue =>
    if s.currentStep = .feedbackForm then navigateToStep s .visaHelp else s
  | .setVisaHelp b =>
    if s.currentStep = .visaHelp then
      { s with formData := { s.formData with visaHelp := some b, visaError := "" } }
    else s
  | .setVisaType t =>
    if s.currentStep = .visaHelp then
      { s with formData := { s.formData with visaType := t, visaError := "" } }
    else s
  | .visaContinue =>
    if s.currentStep = .visaHelp then
      let v := validateVisaForm s.formData
      let s' := { s with formData := v.1 }
      if v.2 then
        navigateToStep s' (if v.1.visaHelp = some true then .allDone else .founderMessage)
      else s'
    else s
  | .offerResponse accepted =>
    if s.currentStep = .offer then
      navigateToStep s (if accepted then .offerAccepted else .usageQuestions)
    else s
  | .setUsageRolesApplied opt =>
    if s.currentStep = .usageQuestions ∧ opt ∈ roleOptions then
      { s with formData := { s.formData with usageRolesApplied := opt } }
    else s
  | .setUsageCompaniesEmailed opt =>
    if s.currentStep = .usageQuestions ∧ opt ∈ roleOptions then
      { s with formData := { s.formData with usageCompaniesEmailed := opt } }
    else s
  | .setUsageCompaniesInterviewed opt =>
    if s.currentStep = .usageQuestions ∧ opt ∈ interviewOptions then
      { s with formData := { s.formData with usageCompaniesInterviewed := opt } }
    else s
  | .usageSubmit getDiscount =>
    if s.currentStep = .usageQuestions then
      let v := validateUsageForm s.formData
      let s' := { s with formData := v.1 }
      if v.2 then
        navigateToStep s' (if getDiscount then .offer else .detailedReasons)
      else s'
    else s
  | .setCancellationReason value =>
    if s.currentStep = .detailedReasons ∧ value ∈ reasonValues then
      { s with formData := { s.formData with
          cancellationReason := value
          reasonDetails := ""
          reasonError := ""
          detailsError := "" } }
    else s
  | .setReasonDetails t =>
    if s.currentStep = .detailedReasons then
      { s with formData := { s.formData with reasonDetails := t, detailsError := "" } }
    else s
  | .reasonsSubmit getDiscount =>
    if s.currentStep = .detailedReasons then
      let v := validateReasonsForm s.formData
      let s' := { s with formData := v.1 }
      if v.2 then
        navigateToStep s' (if getDiscount then .offer else .sorryToGo)
      else s'
    else s
  | .back => goBack s
  | .closeButton => resetToInitial s
  | .finishClose => s

/-- A fresh session: the `useState` starting values, with the variant the
open-session `useEffect` assigned. -/
def initState (v : Variant) : WizardState :=
  { currentStep := .initial, downsellVariant := v,
    stepHistory := [.initial], formData := initialFormData }

/-- Run a session: a fresh state, then one step per event. -/
def runTrace (v : Variant) (es : List Event) : WizardState :=
  es.foldl step (initState v)

/-- The job-found branch fields named by the invariant (the congrats answers,
the free-text feedback and the visa pair): at least one is set. -/
def jobFoundPopulated (f : FormData) : Prop :=
  f.usedMigrateMate ≠ none ∨ f.rolesApplied ≠ "" ∨ f.companiesEmailed ≠ "" ∨
    f.companiesInterviewed ≠ "" ∨ f.feedback ≠ "" ∨ f.visaHelp ≠ none ∨
    f.visaType ≠ ""

/-- The still-looking branch fields named by the invariant: at least one is
set. -/
def stillLookingPopulated (f : FormData) : Prop :=
  f.usageRolesApplied ≠ "" ∨ f.usageCompaniesEmailed ≠ "" ∨
    f.usageCompaniesInterviewed ≠ "" ∨ f.cancellationReason ≠ "" ∨
    f.reasonDetails ≠ ""

instance instDecJobFoundPopulated (f : FormData) :
    Decidable (jobFoundPopulated f) := by
  unfold jobFoundPopulated; infer_instance

instance instDecStillLookingPopulated (f : FormData) :
    Decidable (stillLookingPopulated f) := by
  unfold stillLookingPopulated; infer_instance

/-- Modelled from the spec: the persisted `CancellationRecord` shape of §3/§6
and the `cancellations` columns of `seed.sql`.  The repository's persistence
layer (`supabase.ts` and the terminal-step writes the README describes) is not
among the source files, so the record and its construction are taken from the
spec's words; user id, subscription id and timestamp, which no claim touches,
are left out.  Every field beyond the variant tag and the accepted-discount
flag is optional. -/
structure CancellationRecord where
  downsell_variant : Variant
  accepted_downsell : Bool
  found_job : Option Bool
  used_migratemate : Option Bool
  roles_applied : Option String
  companies_emailed : Option String
  companies_interviewed : Option String
  feedback : Option String
  visa_help : Option Bool
  visa_type : Option String
  usage_roles_applied : Option String
  usage_companies_emailed : Option String
  usage_companies_interviewed : Option String
  cancellation_reason : Option String
  reason_details : Option String
deriving DecidableEq, Repr

/-- A JS string field is included only when set (non-empty). -/
def optStr (s : String) : Option String :=
  if s = "" then none else some s

/-- Modelled from the spec, §6: "only fields actually set in FormState for the
taken branch are included; the Variant and the boolean discount-acceptance
outcome are always included". -/
def buildCancellationRecord (v : Variant) (accepted : Bool) (f : FormData) :
    CancellationRecord :=
  { downsell_variant := v
    accepted_downsell := accepted
    found_job := f.foundJob
    used_migratemate := f.usedMigrateMate
    roles_applied := optStr f.rolesApplied
    companies_emailed := optStr f.companiesEmailed
    companies_interviewed := optStr f.companiesInterviewed
    feedback := optStr f.feedback
    visa_help := f.visaHelp
    visa_type := optStr f.visaType
    usage_roles_applied := optStr f.usageRolesApplied
    usage_companies_emailed := optStr f.usageCompaniesEmailed
    usage_companies_interviewed := optStr f.usageCompaniesInterviewed
    cancellation_reason := optStr f.cancellationReason
    reason_details := optStr f.reasonDetails }

/-- Modelled from the spec, §4.4/§6: persistence is triggered exactly at the
terminal steps, once per arrival; the accepted-discount outcome is true
exactly for the offer-accepted terminal.  One user action therefore emits the
singleton insert when it moves the session onto a terminal step, and nothing
otherwise. -/
def stepWrites (s : WizardState) (e : Event) : List CancellationRecord :=
  let s' := step s e
  if s'.currentStep ≠ s.currentStep ∧ s'.currentStep ∈ terminalSteps then
    [buildCancellationRecord s'.downsellVariant (s'.currentStep = .offerAccepted)
      s'.formData]
  else []

/-- All five still-looking answer fields unset. -/
def slEmpty (f : FormData) : Prop :=
  f.usageRolesApplied = "" ∧ f.usageCompaniesEmailed = "" ∧
    f.usageCompaniesInterviewed = "" ∧ f.cancellationReason = "" ∧
    f.reasonDetails = ""

/-- All seven job-found answer fields unset. -/
def jfEmpty (f : FormData) : Prop :=
  f.usedMigrateMate = none ∧ f.rolesApplied = "" ∧ f.companiesEmailed = "" ∧
    f.companiesInterviewed = "" ∧ f.feedback = "" ∧ f.visaHelp = none ∧
    f.visaType = ""

instance instDecSlEmpty (f : FormData) : Decidable (slEmpty f) := by
  unfold slEmpty; infer_instance

instance instDecJfEmpty (f : FormData) : Decidable (jfEmpty f) := by
  unfold jfEmpty; infer_instance

/-- The steps that belong to the still-looking path. -/
def slSteps : List FlowStep :=
  [.offer, .offerAccepted, .usageQuestions, .detailedReasons, .sorryToGo]

/-- The steps that belong to the job-found path. -/
def jfSteps : List FlowStep :=
  [.congratsForm, .feedbackForm, .visaHelp, .allDone, .founderMessage]

/-- Invariant of sessions that never answer "still looking": the cursor and
the history avoid the still-looking steps and the still-looking fields stay
unset. -/
def noSL (s : WizardState) : Prop :=
  s.currentStep ∉ slSteps ∧ (∀ st ∈ s.stepHistory, st ∉ slSteps) ∧
    slEmpty s.formData

/-- Invariant of sessions that never answer "found a job": the cursor and the
history avoid the job-found steps and the job-found fields stay unset. -/
def noJF (s : WizardState) : Prop :=
  s.currentStep ∉ jfSteps ∧ (∀ st ∈ s.stepHistory, st ∉ jfSteps) ∧
    jfEmpty s.formData

/-- A form with every validated field filled in; concrete fixture for
witnesses. -/
def fullForm : FormData :=
  { initialFormData with
      usedMigrateMate := some true
      rolesApplied := "1-5"
      companiesEmailed := "0"
      companiesInterviewed := "1-2"
      visaHelp := some true
      visaType := "H-1B"
      usageRolesApplied := "0"
      usageCompaniesEmailed := "0"
      usageCompaniesInterviewed := "0"
      cancellationReason := "other"
      reasonDetails := "abcdefghijklmnopqrstuvwxy" }

/-- A session parked on the visa-help step; concrete fixture for witnesses. -/
def visaHelpState : WizardState :=
  runTrace Variant.A [.initialChoice true, .setUsedMigrateMate true,
    .setRolesApplied "1-5", .setCompaniesEmailed "0", .setCompaniesInterviewed "1-2",
    .congratsContinue, .feedbackContinue]

/-- A session parked on the detailed-reasons step with no reason chosen yet;
concrete fixture for witnesses. -/
def detailedReasonsState : WizardState :=
  runTrace Variant.A [.initialChoice false, .offerResponse false,
    .setUsageRolesApplied "0", .setUsageCompaniesEmailed "0",
    .setUsageCompaniesInterviewed "0", .usageSubmit false]

/-- A still-looking session brought to the detailed-reasons step with a valid
reason and details; concrete fixture for witnesses. -/
def stillLookingTrace : List Event :=
  [.initialChoice false, .offerResponse false, .setUsageRolesApplied "1-5",
   .setUsageCompaniesEmailed "0", .setUsageCompaniesInterviewed "1-2",
   .usageSubmit false, .setCancellationReason "decided-not-to-move",
   .setReasonDetails "I changed my mind about relocating entirely"]

end CancellationFlow

namespace CancellationFlow

/-! Helper lemmas. -/

theorem append_singleton_notin {l : List FlowStep} {t : FlowStep}
    {bad : List FlowStep} (ht : t ∉ bad) (hl : ∀ x ∈ l, x ∉ bad) :
    ∀ x ∈ l ++ [t], x ∉ bad := by
  intro x hx
  rcases List.mem_append.1 hx with h1 | h1
  · exact hl x h1
  · simp only [List.mem_singleton] at h1
    exact h1 ▸ ht

theorem slEmpty_validateCongratsForm {f : FormData} (h : slEmpty f) :
    slEmpty (validateCongratsForm f).1 := by
  unfold validateCongratsForm; split <;> exact h

theorem slEmpty_validateVisaForm {f : FormData} (h : slEmpty f) :
    slEmpty (validateVisaForm f).1 := by
  unfold validateVisaForm; split <;> [exact h; (split <;> exact h)]

theorem jfEmpty_validateUsageForm {f : FormData} (h : jfEmpty f) :
    jfEmpty (validateUsageForm f).1 := by
  unfold validateUsageForm; split <;> exact h

theorem jfEmpty_validateReasonsForm {f : FormData} (h : jfEmpty f) :
    jfEmpty (validateReasonsForm f).1 := by
  unfold validateReasonsForm
  split
  · exact h
  · split
    · split <;> exact h
    · split <;> exact h

theorem goBack_formData (s : WizardState) : (goBack s).formData = s.formData := by
  unfold goBack; split <;> rfl

theorem goBack_history_subset (s : WizardState) :
    ∀ st ∈ (goBack s).stepHistory, st ∈ s.stepHistory := by
  unfold goBack; split
  · intro st hst
    exact (s.stepHistory.dropLast_sublist).subset hst
  · intro st hst; exact hst

theorem goBack_currentStep (s : WizardState) :
    (goBack s).currentStep = .initial ∨ (goBack s).currentStep ∈ s.stepHistory ∨
      (goBack s).currentStep = s.currentStep := by
  unfold goBack; split
  · cases hl : s.stepHistory.dropLast.getLast? with
    | none => left; simp [hl]
    | some x =>
      right; left
      simp only [hl, Option.getD_some]
      obtain ⟨hne, hx⟩ := List.mem_getLast?_eq_getLast hl
      exact (s.stepHistory.dropLast_sublist).subset (hx ▸ List.getLast_mem hne)
  · right; right; rfl

theorem noSL_step (s : WizardState) (e : Event)
    (he : e ≠ Event.initialChoice false) (h : noSL s) : noSL (step s e) := by
  obtain ⟨hc, hh, hf⟩ := h
  cases e with
  | initialChoice b =>
    cases b
    · exact absurd rfl he
    · simp only [step, navigateToStep]
      split
      · exact ⟨(by decide : FlowStep.congratsForm ∉ slSteps),
          append_singleton_notin (by decide : FlowStep.congratsForm ∉ slSteps) hh, hf⟩
      · exact ⟨hc, hh, hf⟩
  | setUsedMigrateMate b => simp only [step]; split <;> exact ⟨hc, hh, hf⟩
  | setRolesApplied opt => simp only [step]; split <;> exact ⟨hc, hh, hf⟩
  | setCompaniesEmailed opt => simp only [step]; split <;> exact ⟨hc, hh, hf⟩
  | setCompaniesInterviewed opt => simp only [step]; split <;> exact ⟨hc, hh, hf⟩
  | congratsContinue =>
    simp only [step, navigateToStep]
    split
    · split
      · exact ⟨(by decide : FlowStep.feedbackForm ∉ slSteps),
          append_singleton_notin (by decide : FlowStep.feedbackForm ∉ slSteps) hh,
          slEmpty_validateCongratsForm hf⟩
      · exact ⟨hc, hh, slEmpty_validateCongratsForm hf⟩
    · exact ⟨hc, hh, hf⟩
  | setFeedback t => simp only [step]; split <;> exact ⟨hc, hh, hf⟩
  | feedbackContinue =>
    simp only [step, navigateToStep]
    split
    · exact ⟨(by decide : FlowStep.visaHelp ∉ slSteps),
        append_singleton_notin (by decide : FlowStep.visaHelp ∉ slSteps) hh, hf⟩
    · exact ⟨hc, hh, hf⟩
  | setVisaHelp b => simp only [step]; split <;> exact ⟨hc, hh, hf⟩
  | setVisaType t => simp only [step]; split <;> exact ⟨hc, hh, hf⟩
  | visaContinue =>
    simp only [step, navigateToStep]
    split
    · split
      · split
        · exact ⟨(by decide : FlowStep.allDone ∉ slSteps),
            append_singleton_notin (by decide : FlowStep.allDone ∉ slSteps) hh,
            slEmpty_validateVisaForm hf⟩
        · exact ⟨(by decide : FlowStep.founderMessage ∉ slSteps),
            append_singleton_notin (by decide : FlowStep.founderMessage ∉ slSteps) hh,
            slEmpty_validateVisaForm hf⟩
      · exact ⟨hc, hh, slEmpty_validateVisaForm hf⟩
    · exact ⟨hc, hh, hf⟩
  | offerResponse accepted =>
    simp only [step]
    split
    · next hg => exact (hc (by rw [hg]; decide)).elim
    · exact ⟨hc, hh, hf⟩
  | setUsageRolesApplied opt =>
    simp only [step]
    split
    · next hg => exact (hc (by rw [hg.1]; decide)).elim
    · exact ⟨hc, hh, hf⟩
  | setUsageCompaniesEmailed opt =>
    simp only [step]
    split
    · next hg => exact (hc (by rw [hg.1]; decide)).elim
    · exact ⟨hc, hh, hf⟩
  | setUsageCompaniesInterviewed opt =>
    simp only [step]
    split
    · next hg => exact (hc (by rw [hg.1]; decide)).elim
    · exact ⟨hc, hh, hf⟩
  | usageSubmit getDiscount =>
    simp only [step]
    split
    · next hg => exact (hc (by rw [hg]; decide)).elim
    · exact ⟨hc, hh, hf⟩
  | setCancellationReason value =>
    simp only [step]
    split
    · next hg => exact (hc (by rw [hg.1]; decide)).elim
    · exact ⟨hc, hh, hf⟩
  | setReasonDetails t =>
    simp only [step]
    split
    · next hg => exact (hc (by rw [hg]; decide)).elim
    · exact ⟨hc, hh, hf⟩
  | reasonsSubmit getDiscount =>
    simp only [step]
    split
    · next hg => exact (hc (by rw [hg]; decide)).elim
    · exact ⟨hc, hh, hf⟩
  | back =>
    simp only [step]
    refine ⟨?_, ?_, ?_⟩
    · rcases goBack_currentStep s with h1 | h1 | h1
      · rw [h1]; decide
      · exact fun hm => hh _ h1 hm
      · rw [h1]; exact hc
    · intro st hst
      exact hh st (goBack_history_subset s st hst)
    · rw [goBack_formData]; exact hf
  | closeButton =>
    simp only [step, resetToInitial]
    exact ⟨(by decide : FlowStep.initial ∉ slSteps),
      (by decide : ∀ st ∈ [FlowStep.initial], st ∉ slSteps),
      (by decide : slEmpty initialFormData)⟩
  | finishClose => exact ⟨hc, hh, hf⟩

theorem noJF_step (s : WizardState) (e : Event)
    (he : e ≠ Event.initialChoice true) (h : noJF s) : noJF (step s e) := by
  obtain ⟨hc, hh, hf⟩ := h
  cases e with
  | initialChoice b =>
    cases b
    · simp only [step, navigateToStep]
      split
      · exact ⟨(by decide : FlowStep.offer ∉ jfSteps),
          append_singleton_notin (by decide : FlowStep.offer ∉ jfSteps) hh, hf⟩
      · exact ⟨hc, hh, hf⟩
    · exact absurd rfl he
  | setUsedMigrateMate b =>
    simp only [step]
    split
    · next hg => exact (hc (by rw [hg]; decide)).elim
    · exact ⟨hc, hh, hf⟩
  | setRolesApplied opt =>
    simp only [step]
    split
    · next hg => exact (hc (by rw [hg.1]; decide)).elim
    · exact ⟨hc, hh, hf⟩
  | setCompaniesEmailed opt =>
    simp only [step]
    split
    · next hg => exact (hc (by rw [hg.1]; decide)).elim
    · exact ⟨hc, hh, hf⟩
  | setCompaniesInterviewed opt =>
    simp only [step]
    split
    · next hg => exact (hc (by rw [hg.1]; decide)).elim
    · exact ⟨hc, hh, hf⟩
  | congratsContinue =>
    simp only [step]
    split
    · next hg => exact (hc (by rw [hg]; decide)).elim
    · exact ⟨hc, hh, hf⟩
  | setFeedback t =>
    simp only [step]
    split
    · next hg => exact (hc (by rw [hg]; decide)).elim
    · exact ⟨hc, hh, hf⟩
  | feedbackContinue =>
    simp only [step]
    split
    · next hg => exact (hc (by rw [hg]; decide)).elim
    · exact ⟨hc, hh, hf⟩
  | setVisaHelp b =>
    simp only [step]
    split
    · next hg => exact (hc (by rw [hg]; decide)).elim
    · exact ⟨hc, hh, hf⟩
  | setVisaType t =>
    simp only [step]
    split
    · next hg => exact (hc (by rw [hg]; decide)).elim
    · exact ⟨hc, hh, hf⟩
  | visaContinue =>
    simp only [step]
    split
    · next hg => exact (hc (by rw [hg]; decide)).elim
    · exact ⟨hc, hh, hf⟩
  | offerResponse accepted =>
    simp only [step, navigateToStep]
    split
    · split
      · exact ⟨(by decide : FlowStep.offerAccepted ∉ jfSteps),
          append_singleton_notin (by decide : FlowStep.offerAccepted ∉ jfSteps) hh, hf⟩
      · exact ⟨(by decide : FlowStep.usageQuestions ∉ jfSteps),
          append_singleton_notin (by decide : FlowStep.usageQuestions ∉ jfSteps) hh, hf⟩
    · exact ⟨hc, hh, hf⟩
  | setUsageRolesApplied opt => simp only [step]; split <;> exact ⟨hc, hh, hf⟩
  | setUsageCompaniesEmailed opt => simp only [step]; split <;> exact ⟨hc, hh, hf⟩
  | setUsageCompaniesInterviewed opt => simp only [step]; split <;> exact ⟨hc, hh, hf⟩
  | usageSubmit getDiscount =>
    simp only [step, navigateToStep]
    split
    · split
      · split
        · exact ⟨(by decide : FlowStep.offer ∉ jfSteps),
            append_singleton_notin (by decide : FlowStep.offer ∉ jfSteps) hh,
            jfEmpty_validateUsageForm hf⟩
        · exact ⟨(by decide : FlowStep.detailedReasons ∉ jfSteps),
            append_singleton_notin (by decide : FlowStep.detailedReasons ∉ jfSteps) hh,
            jfEmpty_validateUsageForm hf⟩
      · exact ⟨hc, hh, jfEmpty_validateUsageForm hf⟩
    · exact ⟨hc, hh, hf⟩
  | setCancellationReason value => simp only [step]; split <;> exact ⟨hc, hh, hf⟩
  | setReasonDetails t => simp only [step]; split <;> exact ⟨hc, hh, hf⟩
  | reasonsSubmit getDiscount =>
    simp only [step, navigateToStep]
    split
    · split
      · split
        · exact ⟨(by decide : FlowStep.offer ∉ jfSteps),
            append_singleton_notin (by decide : FlowStep.offer ∉ jfSteps) hh,
            jfEmpty_validateReasonsForm hf⟩
        · exact ⟨(by decide : FlowStep.sorryToGo ∉ jfSteps),
            append_singleton_notin (by decide : FlowStep.sorryToGo ∉ jfSteps) hh,
            jfEmpty_validateReasonsForm hf⟩
      · exact ⟨hc, hh, jfEmpty_validateReasonsForm hf⟩
    · exact ⟨hc, hh, hf⟩
  | back =>
    simp only [step]
    refine ⟨?_, ?_, ?_⟩
    · rcases goBack_currentStep s with h1 | h1 | h1
      · rw [h1]; decide
      · exact fun hm => hh _ h1 hm
      · rw [h1]; exact hc
    · intro st hst
      exact hh st (goBack_history_subset s st hst)
    · rw [goBack_formData]; exact hf
  | closeButton =>
    simp only [step, resetToInitial]
    exact ⟨(by decide : FlowStep.initial ∉ jfSteps),
      (by decide : ∀ st ∈ [FlowStep.initial], st ∉ jfSteps),
      (by decide : jfEmpty initialFormData)⟩
  | finishClose => exact ⟨hc, hh, hf⟩

theorem noSL_foldl (es : List Event) :
    ∀ s : WizardState, Event.initialChoice false ∉ es → noSL s →
      noSL (es.foldl step s) := by
  induction es with
  | nil => intro s _ h; exact h
  | cons e t ih =>
    intro s hmem h
    have he : e ≠ Event.initialChoice false := fun hEq =>
      hmem (hEq ▸ List.mem_cons_self e t)
    exact ih (step s e) (fun hm => hmem (List.mem_cons_of_mem e hm)) (noSL_step s e he h)

theorem noJF_foldl (es : List Event) :
    ∀ s : WizardState, Event.initialChoice true ∉ es → noJF s →
      noJF (es.foldl step s) := by
  induction es with
  | nil => intro s _ h; exact h
  | cons e t ih =>
    intro s hmem h
    have he : e ≠ Event.initialChoice true := fun hEq =>
      hmem (hEq ▸ List.mem_cons_self e t)
    exact ih (step s e) (fun hm => hmem (List.mem_cons_of_mem e hm)) (noJF_step s e he h)

theorem noSL_initState (v : Variant) : noSL (initState v) :=
  ⟨(by decide : FlowStep.initial ∉ slSteps),
    (by decide : ∀ st ∈ [FlowStep.initial], st ∉ slSteps),
    (by decide : slEmpty initialFormData)⟩

theorem noJF_initState (v : Variant) : noJF (initState v) :=
  ⟨(by decide : FlowStep.initial ∉ jfSteps),
    (by decide : ∀ st ∈ [FlowStep.initial], st ∉ jfSteps),
    (by decide : jfEmpty initialFormData)⟩

theorem not_jobFoundPopulated_of_jfEmpty {f : FormData} (h : jfEmpty f) :
    ¬ jobFoundPopulated f := by
  obtain ⟨h1, h2, h3, h4, h5, h6, h7⟩ := h
  intro hp
  rcases hp with p | p | p | p | p | p | p <;> simp_all

theorem not_stillLookingPopulated_of_slEmpty {f : FormData} (h : slEmpty f) :
    ¬ stillLookingPopulated f := by
  obtain ⟨h1, h2, h3, h4, h5⟩ := h
  intro hp
  rcases hp with p | p | p | p | p <;> simp_all

theorem optStr_of_ne {s : String} (h : s ≠ "") : optStr s = some s := if_neg h

theorem validateReasonsForm_slAnswers (f : FormData) :
    (validateReasonsForm f).1.cancellationReason = f.cancellationReason ∧
    (validateReasonsForm f).1.usageRolesApplied = f.usageRolesApplied ∧
    (validateReasonsForm f).1.usageCompaniesEmailed = f.usageCompaniesEmailed ∧
    (validateReasonsForm f).1.usageCompaniesInterviewed = f.usageCompaniesInterviewed ∧
    (validateReasonsForm f).1.reasonDetails = f.reasonDetails := by
  unfold validateReasonsForm
  split
  · exact ⟨rfl, rfl, rfl, rfl, rfl⟩
  · split
    · split
      · exact ⟨rfl, rfl, rfl, rfl, rfl⟩
      · exact ⟨rfl, rfl, rfl, rfl, rfl⟩
    · split
      · exact ⟨rfl, rfl, rfl, rfl, rfl⟩
      · exact ⟨rfl, rfl, rfl, rfl, rfl⟩

theorem validateReasonsForm_reason_ne {f : FormData}
    (h : (validateReasonsForm f).2 = true) : f.cancellationReason ≠ "" := by
  intro hEq
  unfold validateReasonsForm at h
  rw [if_pos hEq] at h
  exact Bool.false_ne_true h

theorem validateReasonsForm_fail_err (f : FormData) :
    (validateReasonsForm f).2 = false →
      (validateReasonsForm f).1.reasonError ≠ "" ∨
        (validateReasonsForm f).1.detailsError ≠ "" := by
  unfold validateReasonsForm
  split
  · intro _
    left
    exact (by decide : ("To help us understand, please pick an option" : String) ≠ "")
  · split
    · split
      · intro _
        right
        exact (by decide : ("Please enter a valid number" : String) ≠ "")
      · intro hcontra; exact absurd hcontra (by decide : ¬ (true = false))
    · split
      · intro _
        right
        exact (by decide : ("Please type 25 characters min" : String) ≠ "")
      · intro hcontra; exact absurd hcontra (by decide : ¬ (true = false))

theorem downsellVariant_step (s : WizardState) (e : Event) :
    (step s e).downsellVariant = s.downsellVariant := by
  cases e <;>
    simp only [step, navigateToStep, goBack, resetToInitial] <;>
    (repeat' split) <;> rfl

theorem downsellVariant_foldl (es : List Event) :
    ∀ s : WizardState, (es.foldl step s).downsellVariant = s.downsellVariant := by
  induction es with
  | nil => intro s; rfl
  | cons e t ih =>
    intro s
    rw [List.foldl_cons, ih (step s e), downsellVariant_step]

end CancellationFlow

namespace CancellationFlow

/-! Claim theorems. -/

/-- C1 counterexample: the claimed invariant fails as stated.  A session that
answers "found a job", fills a congrats field, navigates back to `initial` and
answers "still looking" reaches (through valid transitions only) a state where
a job-found field and a still-looking field are both populated, because
neither `goBack` nor `handleInitialChoice` clears the other branch. -/
theorem c1_branch_invariant_counterexample :
    jobFoundPopulated (runTrace Variant.A
      [.initialChoice true, .setUsedMigrateMate true, .back, .initialChoice false,
       .offerResponse false, .setUsageRolesApplied "1-5"]).formData ∧
    stillLookingPopulated (runTrace Variant.A
      [.initialChoice true, .setUsedMigrateMate true, .back, .initialChoice false,
       .offerResponse false, .setUsageRolesApplied "1-5"]).formData := by
  decide

/-- C1 amended: for every state reachable from a fresh session, at most one of
the job-found branch fields and the still-looking branch fields is populated,
provided every answer given at the `initial` step during the session is the
same; a session that back-navigates to `initial` and chooses the other answer
can populate both branches. -/
theorem c1_branch_invariant_amended (v : Variant) (es : List Event)
    (h : ∀ b₁ b₂ : Bool, Event.initialChoice b₁ ∈ es →
      Event.initialChoice b₂ ∈ es → b₁ = b₂) :
    ¬ (jobFoundPopulated (runTrace v es).formData ∧
       stillLookingPopulated (runTrace v es).formData) := by
  by_cases hf : Event.initialChoice false ∈ es
  · have hnot : Event.initialChoice true ∉ es := by
      intro ht
      have hbe := h true false ht hf
      simp at hbe
    have hinv := noJF_foldl es (initState v) hnot (noJF_initState v)
    exact fun hp => not_jobFoundPopulated_of_jfEmpty hinv.2.2 hp.1
  · have hinv := noSL_foldl es (initState v) hf (noSL_initState v)
    exact fun hp => not_stillLookingPopulated_of_slEmpty hinv.2.2 hp.2

/-- C1 witness: the amended invariant applied to a concrete still-looking
session. -/
theorem c1_branch_invariant_witness :
    ¬ (jobFoundPopulated (runTrace Variant.A
        [.initialChoice false, .offerResponse false,
         .setUsageRolesApplied "1-5"]).formData ∧
       stillLookingPopulated (runTrace Variant.A
        [.initialChoice false, .offerResponse false,
         .setUsageRolesApplied "1-5"]).formData) :=
  c1_branch_invariant_amended Variant.A
    [.initialChoice false, .offerResponse false, .setUsageRolesApplied "1-5"]
    (by decide)

/-- C2: on a still-looking session sitting at detailed-reasons with a valid
form, the complete-cancellation action moves to the terminal sorry-to-go step
and emits exactly one insert of the cancellation record, which always carries
the session's variant and the accepted-discount flag (false here), includes
exactly the populated still-looking fields, and contains no job-found branch
field.  (The persistence layer itself is modelled from the spec, §4.4/§6; see
`stepWrites` and `buildCancellationRecord`.) -/
theorem c2_sorryToGo_insert (v : Variant) (es : List Event)
    (hstill : Event.initialChoice true ∉ es)
    (hstep : (runTrace v es).currentStep = FlowStep.detailedReasons)
    (hvalid : (validateReasonsForm (runTrace v es).formData).2 = true) :
    (step (runTrace v es) (.reasonsSubmit false)).currentStep = FlowStep.sorryToGo ∧
    stepWrites (runTrace v es) (.reasonsSubmit false) =
      [buildCancellationRecord (runTrace v es).downsellVariant false
        (validateReasonsForm (runTrace v es).formData).1] ∧
    ∀ r ∈ stepWrites (runTrace v es) (.reasonsSubmit false),
      r.downsell_variant = (runTrace v es).downsellVariant ∧
      r.accepted_downsell = false ∧
      r.used_migratemate = none ∧ r.roles_applied = none ∧
      r.companies_emailed = none ∧ r.companies_interviewed = none ∧
      r.feedback = none ∧ r.visa_help = none ∧ r.visa_type = none ∧
      r.cancellation_reason = some (runTrace v es).formData.cancellationReason ∧
      r.usage_roles_applied = optStr (runTrace v es).formData.usageRolesApplied ∧
      r.usage_companies_emailed = optStr (runTrace v es).formData.usageCompaniesEmailed ∧
      r.usage_companies_interviewed =
        optStr (runTrace v es).formData.usageCompaniesInterviewed ∧
      r.reason_details = optStr (runTrace v es).formData.reasonDetails := by
  have hjf : jfEmpty (validateReasonsForm (runTrace v es).formData).1 :=
    jfEmpty_validateReasonsForm
      (noJF_foldl es (initState v) hstill (noJF_initState v)).2.2
  have h1 : step (runTrace v es) (.reasonsSubmit false) =
      navigateToStep
        { runTrace v es with
            formData := (validateReasonsForm (runTrace v es).formData).1 }
        FlowStep.sorryToGo := by
    simp [step, hstep, hvalid]
  have h2 : stepWrites (runTrace v es) (.reasonsSubmit false) =
      [buildCancellationRecord (runTrace v es).downsellVariant false
        (validateReasonsForm (runTrace v es).formData).1] := by
    simp only [stepWrites, h1, navigateToStep]
    rw [if_pos]
    · simp [buildCancellationRecord]
    · exact ⟨by rw [hstep]; decide, by decide⟩
  refine ⟨by rw [h1]; rfl, h2, ?_⟩
  intro r hr
  rw [h2, List.mem_singleton] at hr
  subst hr
  obtain ⟨e1, e2, e3, e4, e5, e6, e7⟩ := hjf
  obtain ⟨a1, a2, a3, a4, a5⟩ := validateReasonsForm_slAnswers (runTrace v es).formData
  refine ⟨rfl, rfl, ?_, ?_, ?_, ?_, ?_, ?_, ?_, ?_, ?_, ?_, ?_, ?_⟩
  · exact e1
  · show optStr _ = none
    rw [e2]; rfl
  · show optStr _ = none
    rw [e3]; rfl
  · show optStr _ = none
    rw [e4]; rfl
  · show optStr _ = none
    rw [e5]; rfl
  · exact e6
  · show optStr _ = none
    rw [e7]; rfl
  · show optStr _ = some _
    rw [a1]
    exact optStr_of_ne (validateReasonsForm_reason_ne hvalid)
  · show optStr _ = optStr _
    rw [a2]
  · show optStr _ = optStr _
    rw [a3]
  · show optStr _ = optStr _
    rw [a4]
  · show optStr _ = optStr _
    rw [a5]

/-- C2 witness: the insert emission applied to a concrete still-looking
session, with the emitted record's fields evaluated. -/
theorem c2_sorryToGo_insert_witness :
    (step (runTrace Variant.B stillLookingTrace) (.reasonsSubmit false)).currentStep =
      FlowStep.sorryToGo ∧
    stepWrites (runTrace Variant.B stillLookingTrace) (.reasonsSubmit false) =
      [buildCancellationRecord (runTrace Variant.B stillLookingTrace).downsellVariant
        false (validateReasonsForm (runTrace Variant.B stillLookingTrace).formData).1] ∧
    (buildCancellationRecord (runTrace Variant.B stillLookingTrace).downsellVariant
      false
      (validateReasonsForm
        (runTrace Variant.B stillLookingTrace).formData).1).downsell_variant =
      Variant.B ∧
    (buildCancellationRecord (runTrace Variant.B stillLookingTrace).downsellVariant
      false
      (validateReasonsForm
        (runTrace Variant.B stillLookingTrace).formData).1).accepted_downsell =
      false ∧
    (buildCancellationRecord (runTrace Variant.B stillLookingTrace).downsellVariant
      false
      (validateReasonsForm
        (runTrace Variant.B stillLookingTrace).formData).1).used_migratemate =
      none ∧
    (buildCancellationRecord (runTrace Variant.B stillLookingTrace).downsellVariant
      false
      (validateReasonsForm
        (runTrace Variant.B stillLookingTrace).formData).1).visa_type = none ∧
    (buildCancellationRecord (runTrace Variant.B stillLookingTrace).downsellVariant
      false
      (validateReasonsForm
        (runTrace Variant.B stillLookingTrace).formData).1).cancellation_reason =
      some "decided-not-to-move" ∧
    (buildCancellationRecord (runTrace Variant.B stillLookingTrace).downsellVariant
      false
      (validateReasonsForm
        (runTrace Variant.B stillLookingTrace).formData).1).reason_details =
      some "I changed my mind about relocating entirely" := by
  have h := c2_sorryToGo_insert Variant.B stillLookingTrace
    (by decide) (by decide) (by decide)
  exact ⟨h.1, h.2.1, by decide, by decide, by decide, by decide, by decide, by decide⟩

end CancellationFlow

namespace CancellationFlow

/-- C3 counterexample: the claimed universal reset on close fails as stated.
The terminal Finish button (wired to `onClose` only) leaves the cursor on the
terminal step, the history unreset and the form fields populated. -/
theorem c3_close_reset_counterexample :
    (runTrace Variant.A [.initialChoice true, .setUsedMigrateMate true,
      .setRolesApplied "1-5", .setCompaniesEmailed "0", .setCompaniesInterviewed "1-2",
      .congratsContinue, .feedbackContinue, .setVisaHelp true, .setVisaType "H-1B",
      .visaContinue]).currentStep = FlowStep.allDone ∧
    (step (runTrace Variant.A [.initialChoice true, .setUsedMigrateMate true,
      .setRolesApplied "1-5", .setCompaniesEmailed "0", .setCompaniesInterviewed "1-2",
      .congratsContinue, .feedbackContinue, .setVisaHelp true, .setVisaType "H-1B",
      .visaContinue]) .finishClose).currentStep ≠ FlowStep.initial ∧
    (step (runTrace Variant.A [.initialChoice true, .setUsedMigrateMate true,
      .setRolesApplied "1-5", .setCompaniesEmailed "0", .setCompaniesInterviewed "1-2",
      .congratsContinue, .feedbackContinue, .setVisaHelp true, .setVisaType "H-1B",
      .visaContinue]) .finishClose).formData.foundJob ≠ none ∧
    (step (runTrace Variant.A [.initialChoice true, .setUsedMigrateMate true,
      .setRolesApplied "1-5", .setCompaniesEmailed "0", .setCompaniesInterviewed "1-2",
      .congratsContinue, .feedbackContinue, .setVisaHelp true, .setVisaType "H-1B",
      .visaContinue]) .finishClose).stepHistory ≠ [FlowStep.initial] := by
  decide

/-- C3 amended: the header close button (which runs `resetToInitial` before
`onClose`) resets all session state from every step — cursor back to
`initial`, history back to the single entry `initial`, every form field and
error slot cleared — while the terminal Finish buttons invoke `onClose`
without resetting any session state. -/
theorem c3_close_reset_amended (s : WizardState) :
    step s .closeButton =
      { s with currentStep := .initial, stepHistory := [.initial],
               formData := initialFormData } ∧
    step s .finishClose = s :=
  ⟨rfl, rfl⟩

/-- C4 counterexample: the claimed clear-on-edit fails as stated for the
congrats-form and usage-questions steps.  After a failed validation sets the
step's error, choosing a required field's option leaves the error message in
place (the source's option buttons do not touch `congratsError` /
`usageError`). -/
theorem c4_error_clear_counterexample :
    (runTrace Variant.A [.initialChoice true, .congratsContinue]).formData.congratsError =
      "Please answer all questions to continue" ∧
    (runTrace Variant.A [.initialChoice true, .congratsContinue,
      .setRolesApplied "1-5"]).formData.rolesApplied = "1-5" ∧
    (runTrace Variant.A [.initialChoice true, .congratsContinue,
      .setRolesApplied "1-5"]).formData.congratsError ≠ "" ∧
    (runTrace Variant.A [.initialChoice false, .offerResponse false,
      .usageSubmit false]).formData.usageError ≠ "" ∧
    (runTrace Variant.A [.initialChoice false, .offerResponse false, .usageSubmit false,
      .setUsageRolesApplied "0"]).formData.usageRolesApplied = "0" ∧
    (runTrace Variant.A [.initialChoice false, .offerResponse false, .usageSubmit false,
      .setUsageRolesApplied "0"]).formData.usageError ≠ "" := by
  decide

/-- C4 amended: every validator clears its step's error message on successful
validation; editing the offending input clears the error on the visa-help and
detailed-reasons steps (the visa buttons and visa-type input clear
`visaError`, the reason buttons clear `reasonError` and `detailsError`, the
details textarea clears `detailsError`); but setting a congrats-form or
usage-questions required field leaves that step's error message unchanged. -/
theorem c4_error_clear_amended (f : FormData) (s1 s2 s3 : WizardState) (b : Bool)
    (rv t opt : String) :
    ((validateCongratsForm f).2 = true → (validateCongratsForm f).1.congratsError = "") ∧
    ((validateUsageForm f).2 = true → (validateUsageForm f).1.usageError = "") ∧
    ((validateVisaForm f).2 = true → (validateVisaForm f).1.visaError = "") ∧
    ((validateReasonsForm f).2 = true →
      (validateReasonsForm f).1.reasonError = "" ∧
        (validateReasonsForm f).1.detailsError = "") ∧
    (s1.currentStep = .visaHelp →
      (step s1 (.setVisaHelp b)).formData.visaError = "" ∧
      (step s1 (.setVisaType t)).formData.visaError = "") ∧
    (s2.currentStep = .detailedReasons → rv ∈ reasonValues →
      (step s2 (.setCancellationReason rv)).formData.reasonError = "" ∧
      (step s2 (.setCancellationReason rv)).formData.detailsError = "" ∧
      (step s2 (.setReasonDetails t)).formData.detailsError = "") ∧
    ((step s3 (.setUsedMigrateMate b)).formData.congratsError = s3.formData.congratsError) ∧
    ((step s3 (.setRolesApplied opt)).formData.congratsError = s3.formData.congratsError) ∧
    ((step s3 (.setCompaniesEmailed opt)).formData.congratsError = s3.formData.congratsError) ∧
    ((step s3 (.setCompaniesInterviewed opt)).formData.congratsError =
      s3.formData.congratsError) ∧
    ((step s3 (.setUsageRolesApplied opt)).formData.usageError = s3.formData.usageError) ∧
    ((step s3 (.setUsageCompaniesEmailed opt)).formData.usageError = s3.formData.usageError) ∧
    ((step s3 (.setUsageCompaniesInterviewed opt)).formData.usageError =
      s3.formData.usageError) := by
  refine ⟨?_, ?_, ?_, ?_, ?_, ?_, ?_, ?_, ?_, ?_, ?_, ?_, ?_⟩
  · unfold validateCongratsForm
    split
    · intro hcontra; exact absurd hcontra (by decide : ¬ (false = true))
    · intro _; rfl
  · unfold validateUsageForm
    split
    · intro hcontra; exact absurd hcontra (by decide : ¬ (false = true))
    · intro _; rfl
  · unfold validateVisaForm
    split
    · intro hcontra; exact absurd hcontra (by decide : ¬ (false = true))
    · split
      · intro hcontra; exact absurd hcontra (by decide : ¬ (false = true))
      · intro _; rfl
  · unfold validateReasonsForm
    split
    · intro hcontra; exact absurd hcontra (by decide : ¬ (false = true))
    · split
      · split
        · intro hcontra; exact absurd hcontra (by decide : ¬ (false = true))
        · intro _; exact ⟨rfl, rfl⟩
      · split
        · intro hcontra; exact absurd hcontra (by decide : ¬ (false = true))
        · intro _; exact ⟨rfl, rfl⟩
  · intro hs1
    exact ⟨by simp [step, hs1], by simp [step, hs1]⟩
  · intro hs2 hrv
    refine ⟨by simp [step, hs2, hrv], by simp [step, hs2, hrv], by simp [step, hs2]⟩
  · simp only [step]; split <;> rfl
  · simp only [step]; split <;> rfl
  · simp only [step]; split <;> rfl
  · simp only [step]; split <;> rfl
  · simp only [step]; split <;> rfl
  · simp only [step]; split <;> rfl
  · simp only [step]; split <;> rfl

/-- C4 witness: the amended error-message behaviour applied to concrete form
data and concrete sessions parked on the relevant steps. -/
theorem c4_error_clear_witness :
    (validateCongratsForm fullForm).1.congratsError = "" ∧
    (validateUsageForm fullForm).1.usageError = "" ∧
    (validateVisaForm fullForm).1.visaError = "" ∧
    ((validateReasonsForm fullForm).1.reasonError = "" ∧
      (validateReasonsForm fullForm).1.detailsError = "") ∧
    ((step visaHelpState (.setVisaHelp true)).formData.visaError = "" ∧
      (step visaHelpState (.setVisaType "H-1B")).formData.visaError = "") ∧
    ((step detailedReasonsState (.setCancellationReason "other")).formData.reasonError = "" ∧
      (step detailedReasonsState (.setCancellationReason "other")).formData.detailsError = "" ∧
      (step detailedReasonsState (.setReasonDetails "H-1B")).formData.detailsError = "") ∧
    ((step (initState Variant.A) (.setUsedMigrateMate true)).formData.congratsError =
      (initState Variant.A).formData.congratsError) ∧
    ((step (initState Variant.A) (.setRolesApplied "1-5")).formData.congratsError =
      (initState Variant.A).formData.congratsError) ∧
    ((step (initState Variant.A) (.setCompaniesEmailed "1-5")).formData.congratsError =
      (initState Variant.A).formData.congratsError) ∧
    ((step (initState Variant.A) (.setCompaniesInterviewed "1-5")).formData.congratsError =
      (initState Variant.A).formData.congratsError) ∧
    ((step (initState Variant.A) (.setUsageRolesApplied "1-5")).formData.usageError =
      (initState Variant.A).formData.usageError) ∧
    ((step (initState Variant.A) (.setUsageCompaniesEmailed "1-5")).formData.usageError =
      (initState Variant.A).formData.usageError) ∧
    ((step (initState Variant.A) (.setUsageCompaniesInterviewed "1-5")).formData.usageError =
      (initState Variant.A).formData.usageError) := by
  obtain ⟨h1, h2, h3, h4, h5, h6, h7, h8, h9, h10, h11, h12, h13⟩ :=
    c4_error_clear_amended fullForm visaHelpState detailedReasonsState
      (initState Variant.A) true "other" "H-1B" "1-5"
  exact ⟨h1 (by decide), h2 (by decide), h3 (by decide), h4 (by decide),
    h5 (by decide), h6 (by decide) (by decide), h7, h8, h9, h10, h11, h12, h13⟩

end CancellationFlow

namespace CancellationFlow

/-- C5: the detailed-reasons validator accepts a form iff a cancellation
reason is chosen and — for "too-expensive" — the details parse as a number
(`parseFloat` not NaN, not blank), otherwise the details reach 25 UTF-16 code
units; "abc" is rejected and "50" accepted for "too-expensive", a 24-character
text is rejected and a 25-character text accepted for any other reason; and on
rejection the submit event leaves the step and history unchanged and a
non-empty error message is set. -/
theorem c5_detailed_reasons_validator (f : FormData) (s : WizardState) (gd : Bool) :
    ((validateReasonsForm f).2 = true ↔
      f.cancellationReason ≠ "" ∧
        ((f.cancellationReason = "too-expensive" ∧
            parseFloatIsNaN f.reasonDetails = false ∧ jsTrim f.reasonDetails ≠ "") ∨
          (f.cancellationReason ≠ "too-expensive" ∧ 25 ≤ utf16Length f.reasonDetails))) ∧
    (validateReasonsForm { f with
      cancellationReason := "too-expensive"
      reasonDetails := "abc" }).2 = false ∧
    (validateReasonsForm { f with
      cancellationReason := "too-expensive"
      reasonDetails := "50" }).2 = true ∧
    (validateReasonsForm { f with
      cancellationReason := "other"
      reasonDetails := "abcdefghijklmnopqrstuvwx" }).2 = false ∧
    (validateReasonsForm { f with
      cancellationReason := "other"
      reasonDetails := "abcdefghijklmnopqrstuvwxy" }).2 = true ∧
    (s.currentStep = .detailedReasons → (validateReasonsForm s.formData).2 = false →
      (step s (.reasonsSubmit gd)).currentStep = s.currentStep ∧
      (step s (.reasonsSubmit gd)).stepHistory = s.stepHistory ∧
      ((step s (.reasonsSubmit gd)).formData.reasonError ≠ "" ∨
        (step s (.reasonsSubmit gd)).formData.detailsError ≠ "")) := by
  refine ⟨?_, rfl, rfl, rfl, rfl, ?_⟩
  · unfold validateReasonsForm
    split_ifs with h1 h2 h3 h4
    · simp [h1]
    · refine iff_of_false (by simp) ?_
      rintro ⟨-, ⟨-, hn, ht⟩ | ⟨hr, -⟩⟩
      · rcases h3 with h3 | h3
        · rw [h3] at hn; exact Bool.noConfusion hn
        · exact ht h3
      · exact hr h2
    · rw [not_or] at h3
      exact iff_of_true rfl
        ⟨h1, Or.inl ⟨h2, Bool.not_eq_true _ ▸ h3.1, h3.2⟩⟩
    · refine iff_of_false (by simp) ?_
      rintro ⟨-, ⟨hr, -⟩ | ⟨-, hl⟩⟩
      · exact h2 hr
      · omega
    · exact iff_of_true rfl ⟨h1, Or.inr ⟨h2, by omega⟩⟩
  · intro hs hv
    have hrest : step s (.reasonsSubmit gd) =
        { s with formData := (validateReasonsForm s.formData).1 } := by
      simp [step, hs, hv]
    rw [hrest]
    exact ⟨rfl, rfl, validateReasonsForm_fail_err s.formData hv⟩

/-- C5 witness: the validator characterisation on concrete form data, and the
rejection behaviour on a concrete session at detailed-reasons with no reason
chosen. -/
theorem c5_detailed_reasons_validator_witness :
    ((validateReasonsForm initialFormData).2 = true ↔
      initialFormData.cancellationReason ≠ "" ∧
        ((initialFormData.cancellationReason = "too-expensive" ∧
            parseFloatIsNaN initialFormData.reasonDetails = false ∧
            jsTrim initialFormData.reasonDetails ≠ "") ∨
          (initialFormData.cancellationReason ≠ "too-expensive" ∧
            25 ≤ utf16Length initialFormData.reasonDetails))) ∧
    (validateReasonsForm { initialFormData with
      cancellationReason := "too-expensive"
      reasonDetails := "abc" }).2 = false ∧
    (validateReasonsForm { initialFormData with
      cancellationReason := "too-expensive"
      reasonDetails := "50" }).2 = true ∧
    (validateReasonsForm { initialFormData with
      cancellationReason := "other"
      reasonDetails := "abcdefghijklmnopqrstuvwx" }).2 = false ∧
    (validateReasonsForm { initialFormData with
      cancellationReason := "other"
      reasonDetails := "abcdefghijklmnopqrstuvwxy" }).2 = true ∧
    ((step detailedReasonsState (.reasonsSubmit false)).currentStep =
        detailedReasonsState.currentStep ∧
      (step detailedReasonsState (.reasonsSubmit false)).stepHistory =
        detailedReasonsState.stepHistory ∧
      ((step detailedReasonsState (.reasonsSubmit false)).formData.reasonError ≠ "" ∨
        (step detailedReasonsState (.reasonsSubmit false)).formData.detailsError ≠ "")) := by
  obtain ⟨h1, h2, h3, h4, h5, h6⟩ :=
    c5_detailed_reasons_validator initialFormData detailedReasonsState false
  exact ⟨h1, h2, h3, h4, h5, h6 (by decide) (by decide)⟩

/-- C6: for non-empty identifiers the variant assigner returns A exactly when
the sum of the identifier's UTF-16 character codes is even and B exactly when
it is odd; identifiers with equal character-code sums (e.g. anagrams) get the
same variant. -/
theorem c6_variant_assignment (u1 u2 : String) (h1 : u1 ≠ "") (h2 : u2 ≠ "") :
    (assignVariant u1 = .A ↔ charCodeSum u1 % 2 = 0) ∧
    (assignVariant u1 = .B ↔ charCodeSum u1 % 2 = 1) ∧
    (charCodeSum u1 = charCodeSum u2 → assignVariant u1 = assignVariant u2) := by
  refine ⟨?_, ?_, ?_⟩
  · unfold assignVariant
    split_ifs with h
    · exact iff_of_true rfl h
    · exact iff_of_false not_false h
  · unfold assignVariant
    split_ifs with h
    · exact iff_of_false not_false (by omega)
    · exact iff_of_true rfl (by omega)
  · intro he
    unfold assignVariant
    rw [he]

/-- C6 witness: the assignment parity on "abc" (code sum 294, even, variant A)
and the anagram collision with "cab". -/
theorem c6_variant_assignment_witness :
    (assignVariant "abc" = Variant.A ↔ charCodeSum "abc" % 2 = 0) ∧
    assignVariant "abc" = assignVariant "cab" :=
  ⟨(c6_variant_assignment "abc" "cab" (by decide) (by decide)).1,
   (c6_variant_assignment "abc" "cab" (by decide) (by decide)).2.2 (by decide)⟩

/-- C7: no wizard transition changes the session's variant — a single step
preserves `downsellVariant`, a whole trace keeps the variant it opened with,
and in particular the sessions that re-enter the offer step from
usage-questions or from detailed-reasons still carry the variant assigned at
open. -/
theorem c7_variant_stability (s : WizardState) (e : Event) (v : Variant)
    (es : List Event) :
    (step s e).downsellVariant = s.downsellVariant ∧
    (runTrace v es).downsellVariant = v ∧
    ((runTrace v [.initialChoice false, .offerResponse false, .setUsageRolesApplied "0",
        .setUsageCompaniesEmailed "0", .setUsageCompaniesInterviewed "0",
        .usageSubmit true]).currentStep = FlowStep.offer ∧
      (runTrace v [.initialChoice false, .offerResponse false, .setUsageRolesApplied "0",
        .setUsageCompaniesEmailed "0", .setUsageCompaniesInterviewed "0",
        .usageSubmit true]).downsellVariant = v) ∧
    ((runTrace v [.initialChoice false, .offerResponse false, .setUsageRolesApplied "0",
        .setUsageCompaniesEmailed "0", .setUsageCompaniesInterviewed "0",
        .usageSubmit false, .setCancellationReason "other",
        .setReasonDetails "abcdefghijklmnopqrstuvwxy",
        .reasonsSubmit true]).currentStep = FlowStep.offer ∧
      (runTrace v [.initialChoice false, .offerResponse false, .setUsageRolesApplied "0",
        .setUsageCompaniesEmailed "0", .setUsageCompaniesInterviewed "0",
        .usageSubmit false, .setCancellationReason "other",
        .setReasonDetails "abcdefghijklmnopqrstuvwxy",
        .reasonsSubmit true]).downsellVariant = v) := by
  refine ⟨downsellVariant_step s e, downsellVariant_foldl es (initState v),
    ⟨?_, ?_⟩, ?_, ?_⟩
  · cases v <;> decide
  · cases v <;> decide
  · cases v <;> decide
  · cases v <;> decide

/-- C8: the back action is a no-op when the history has exactly one entry;
otherwise it pops the last entry and makes the previous entry current,
changing nothing else — form data, variant and the remaining history are
untouched and no validator runs. -/
theorem c8_back_navigation (s : WizardState) :
    (s.stepHistory.length = 1 → step s .back = s) ∧
    (∀ (h : List FlowStep) (prev cur : FlowStep), s.stepHistory = h ++ [prev, cur] →
      step s .back =
        { s with stepHistory := h ++ [prev], currentStep := prev }) := by
  constructor
  · intro h1
    simp [step, goBack, h1]
  · intro h prev cur hEq
    have hlen : s.stepHistory.length > 1 := by
      rw [hEq]; simp
    have hassoc : h ++ [prev, cur] = (h ++ [prev]) ++ [cur] := by simp
    have hd : (h ++ [prev, cur]).dropLast = h ++ [prev] := by
      rw [hassoc]
      exact List.dropLast_concat
    have hg : (h ++ [prev]).getLast? = some prev := List.getLast?_concat _
    simp only [step, goBack, hEq, hd, hg]
    rw [if_pos (hEq ▸ hlen)]
    rfl

/-- C8 witness: back on a fresh session (history `[initial]`) is a no-op, and
back after one forward step pops to `initial`. -/
theorem c8_back_navigation_witness :
    step (initState Variant.A) .back = initState Variant.A ∧
    step (runTrace Variant.A [.initialChoice false]) .back =
      { runTrace Variant.A [.initialChoice false] with
          stepHistory := [FlowStep.initial], currentStep := FlowStep.initial } := by
  constructor
  · exact (c8_back_navigation (initState Variant.A)).1 (by decide)
  · exact (c8_back_navigation (runTrace Variant.A [.initialChoice false])).2
      [] .initial .offer (by decide)

/-- C9: the still-looking event sequence drives exactly the claimed steps —
"still looking" at initial reaches offer, declining reaches usage-questions,
submitting the three usage answers with continue reaches detailed-reasons, and
completing with a valid reason reaches the terminal sorry-to-go. -/
theorem c9_still_looking_scenario :
    (runTrace (assignVariant "abc") [.initialChoice false]).currentStep =
      FlowStep.offer ∧
    (runTrace (assignVariant "abc")
      [.initialChoice false, .offerResponse false]).currentStep =
      FlowStep.usageQuestions ∧
    (runTrace (assignVariant "abc") [.initialChoice false, .offerResponse false,
      .setUsageRolesApplied "1-5", .setUsageCompaniesEmailed "0",
      .setUsageCompaniesInterviewed "1-2", .usageSubmit false]).currentStep =
      FlowStep.detailedReasons ∧
    (runTrace (assignVariant "abc") [.initialChoice false, .offerResponse false,
      .setUsageRolesApplied "1-5", .setUsageCompaniesEmailed "0",
      .setUsageCompaniesInterviewed "1-2", .usageSubmit false,
      .setCancellationReason "decided-not-to-move",
      .setReasonDetails "I changed my mind about relocating entirely",
      .reasonsSubmit false]).currentStep = FlowStep.sorryToGo ∧
    FlowStep.sorryToGo ∈ terminalSteps := by
  decide

/-- C10: `getDiscountedPrice` halves its argument (despite the adjacent
comment's "$10 off"), so under variant B the offer shows exactly half the
monthly price (2500→1250, 2900→1450), not a 1000-cent reduction, and under
variant A it shows the original price. -/
theorem c10_discount_price :
    (∀ p : ℚ, getDiscountedPrice p = p / 2) ∧
    offerDisplayedPrice Variant.B 2500 = 1250 ∧
    offerDisplayedPrice Variant.B 2900 = 1450 ∧
    (∀ p : ℚ, offerDisplayedPrice Variant.A p = p) ∧
    getDiscountedPrice 2500 ≠ 2500 - 1000 ∧
    getDiscountedPrice 2900 ≠ 2900 - 1000 := by
  refine ⟨fun p => rfl, ?_, ?_, fun p => rfl, ?_, ?_⟩ <;>
    norm_num [getDiscountedPrice, offerDisplayedPrice]

end CancellationFlow
